import Mathlib

/-!
Verification development for the preference-to-layout pipeline of the
storefront personalization backend.

The Python sources are shallowly embedded: Python floats are modelled as
rationals (`ℚ`) except in the numpy-based vector module, where reals (`ℝ`)
are used because `normalize_vector` divides by a square root; Python dicts
(which preserve insertion order) are modelled as association lists; Python
sets, whose enumeration order is unspecified, are modelled by quantifying
over the enumeration order handed to `list(...)`.
-/

/-! ## Association-list model of Python dicts -/

/-- Lookup `d[k]` in an insertion-ordered dict, as `Option`. -/
def alistGet {α : Type} (d : List (String × α)) (k : String) : Option α :=
  (d.find? (fun p => p.1 == k)).map (·.2)

/-- Assignment `d[k] = v`: updates the binding in place when the key is
present, appends it otherwise (CPython dict semantics). -/
def alistSet {α : Type} : List (String × α) → String → α → List (String × α)
  | [], k, v => [(k, v)]
  | (k', v') :: rest, k, v =>
    if k' == k then (k, v) :: rest else (k', v') :: alistSet rest k v

/-- Compound assignment `d[k] += x` (the builder only applies it to keys that
are present). -/
def alistAdd (d : List (String × ℚ)) (k : String) (x : ℚ) : List (String × ℚ) :=
  alistSet d k ((alistGet d k).getD 0 + x)

/-- Sum of the values of a dict, `sum(d.values())`. -/
def alistSum (d : List (String × ℚ)) : ℚ :=
  (d.map Prod.snd).sum

/-! ## Python `round` on rationals

CPython's `round(x, 3)` rounds to the nearest multiple of `10^-3`,
breaking exact ties toward the even multiple (banker's rounding). None of
the values produced by the constraint builder sits on a tie or near the
float representation error of a tie, so the rational model below agrees
with the float computation of the source. -/

/-- Round to the nearest integer, ties to even. -/
def roundHalfEven (x : ℚ) : ℤ :=
  let f := Rat.floor x
  let r := x - (f : ℚ)
  if r < 1/2 then f
  else if 1/2 < r then f + 1
  else if f % 2 = 0 then f else f + 1

/-- Python `round(x, 3)`. -/
def pyRound3 (x : ℚ) : ℚ :=
  ((roundHalfEven (x * 1000) : ℤ) : ℚ) / 1000

/-- Python `int(x)` for a real-valued quantity: truncation toward zero. -/
def pyInt (x : ℚ) : ℤ :=
  if 0 ≤ x then Rat.floor x else -Rat.floor (-x)

/-- Canonical decimal digit list of a natural number (most significant
first), the reference function for `Nat.toDigitsCore` at base 10. -/
def decChars (n : ℕ) : List Char :=
  if n < 10 then [Nat.digitChar n]
  else decChars (n / 10) ++ [Nat.digitChar (n % 10)]
termination_by n
decreasing_by
  exact Nat.div_lt_self (by omega) (by norm_num)

/-- Parse of a decimal digit list, the left inverse of `decChars`. -/
def parseDec (l : List Char) : ℕ :=
  l.foldl (fun a c => a * 10 + (c.toNat - 48)) 0

/-! ## Data model (`app/models/reducer.py`, `app/models/constraints.py`)

Each pydantic `Literal` field is a closed three-valued enumeration; they are
embedded as inductive types, so every Lean-side record is a valid record. -/

inductive ColorScheme | dark | light | vibrant
deriving DecidableEq

inductive CornerRadius | sharp | rounded | pill
deriving DecidableEq

inductive ButtonSize | small | medium | large
deriving DecidableEq

inductive Density | low | medium | high
deriving DecidableEq

inductive TypographyWeight | light | regular | bold
deriving DecidableEq

inductive DecisionConfidence | low | medium | high
deriving DecidableEq

inductive ExplorationTolerance | low | medium | high
deriving DecidableEq

inductive ScrollBehavior | slow | moderate | fast
deriving DecidableEq

inductive SpeedVsAccuracy | speed | balanced | accuracy
deriving DecidableEq

inductive EngagementDepth | shallow | moderate | deep
deriving DecidableEq

/-- String value of the literal, as it appears in the JSON profile. -/
def ColorScheme.str : ColorScheme → String
  | .dark => "dark" | .light => "light" | .vibrant => "vibrant"

/-- String value of the literal. -/
def CornerRadius.str : CornerRadius → String
  | .sharp => "sharp" | .rounded => "rounded" | .pill => "pill"

/-- String value of the literal. -/
def ButtonSize.str : ButtonSize → String
  | .small => "small" | .medium => "medium" | .large => "large"

/-- String value of the literal. -/
def Density.str : Density → String
  | .low => "low" | .medium => "medium" | .high => "high"

/-- String value of the literal. -/
def TypographyWeight.str : TypographyWeight → String
  | .light => "light" | .regular => "regular" | .bold => "bold"

/-- String value of the literal. -/
def ExplorationTolerance.str : ExplorationTolerance → String
  | .low => "low" | .medium => "medium" | .high => "high"

/-- String value of the literal. -/
def EngagementDepth.str : EngagementDepth → String
  | .shallow => "shallow" | .moderate => "moderate" | .deep => "deep"

/-- Visual preference traits (`VisualTraits`). -/
structure VisualTraits where
  color_scheme : ColorScheme := .light
  corner_radius : CornerRadius := .rounded
  button_size : ButtonSize := .medium
  density : Density := .medium
  typography_weight : TypographyWeight := .regular
deriving DecidableEq

/-- Interaction behavior traits (`InteractionTraits`). -/
structure InteractionTraits where
  decision_confidence : DecisionConfidence := .medium
  exploration_tolerance : ExplorationTolerance := .medium
  scroll_behavior : ScrollBehavior := .moderate
deriving DecidableEq

/-- Behavioral pattern traits (`BehavioralTraits`). -/
structure BehavioralTraits where
  speed_vs_accuracy : SpeedVsAccuracy := .balanced
  engagement_depth : EngagementDepth := .moderate
deriving DecidableEq

/-- Canonical reducer output (`ReducerOutput`), the preference record. -/
structure ReducerOutput where
  visual : VisualTraits := {}
  interaction : InteractionTraits := {}
  behavioral : BehavioralTraits := {}
deriving DecidableEq

/-- Session context (`ReducerContext`); the timestamp field is irrelevant to
the embedded computations and omitted. -/
structure ReducerContext where
  session_id : String
  page_type : String := "home"
  device_type : String := "desktop"
deriving DecidableEq

/-- Hard (filtering) constraints (`HardConstraints`). -/
structure HardConstraints where
  color_scheme : Option ColorScheme := none
  density : Option Density := none
  device_type : Option String := none
  page_type : Option String := none
  excluded_component_ids : List String := []
deriving DecidableEq

/-- Soft (ranking) preference weights (`SoftPreferences`). -/
structure SoftPreferences where
  corner_radius : List (String × ℚ)
  typography_weight : List (String × ℚ)
  button_size : List (String × ℚ)
  genre_weights : List (String × ℚ)
deriving DecidableEq

/-- Combined constraints (`Constraints`). -/
structure Constraints where
  hard : HardConstraints
  soft : SoftPreferences
  exploration_budget : ℚ
deriving DecidableEq

/-- Catalog candidate (`ComponentCandidate`). -/
structure ComponentCandidate where
  component_id : String
  component_type : String
  genre : String
  variant : String
  constraint_score : ℚ := 0
  preference_score : ℚ := 0
  semantic_score : ℚ := 0
  tags : List String := []
  supports_dark_mode : Bool := true
  supports_mobile : Bool := true
deriving DecidableEq

/-- Result of a selection call (`SelectionResult`). -/
structure SelectionResult where
  selected_components : List ComponentCandidate
  exploration_components : List ComponentCandidate
  total_candidates_considered : ℕ
  selection_timestamp : ℚ
deriving DecidableEq

/-! ## Constraint builder (`app/pipeline/constraint_builder.py`) -/

/-- `ConstraintBuilder._build_hard_constraints`. -/
def build_hard_constraints (r : ReducerOutput) (ctx : ReducerContext) : HardConstraints :=
  { color_scheme := some r.visual.color_scheme
    density := some r.visual.density
    device_type := some ctx.device_type
    page_type := some ctx.page_type
    excluded_component_ids := [] }

/-- `ConstraintBuilder._infer_genre_weights`: base distribution, additive
adjustments keyed on density and engagement depth, then renormalization with
each weight rounded to 3 decimals. -/
def infer_genre_weights (r : ReducerOutput) : List (String × ℚ) :=
  let weights : List (String × ℚ) :=
    [("base", 0.25), ("minimalist", 0.25), ("neobrutalist", 0.15),
     ("glassmorphism", 0.20), ("loud", 0.15)]
  let weights :=
    match r.visual.density with
    | .low => alistAdd (alistAdd weights "minimalist" 0.15) "neobrutalist" (-0.10)
    | .high => alistAdd (alistAdd weights "neobrutalist" 0.10) "minimalist" (-0.10)
    | .medium => weights
  let weights :=
    match r.behavioral.engagement_depth with
    | .shallow => alistAdd (alistAdd weights "minimalist" 0.10) "glassmorphism" (-0.05)
    | .deep => alistAdd (alistAdd weights "glassmorphism" 0.10) "loud" 0.05
    | .moderate => weights
  let total := alistSum weights
  weights.map (fun p => (p.1, pyRound3 (p.2 / total)))

/-- `ConstraintBuilder._build_soft_preferences`. -/
def build_soft_preferences (r : ReducerOutput) : SoftPreferences :=
  let corner := alistSet [("sharp", 0.2), ("rounded", 0.2), ("pill", 0.2)]
    r.visual.corner_radius.str 0.6
  let typo := alistSet [("light", 0.2), ("regular", 0.2), ("bold", 0.2)]
    r.visual.typography_weight.str 0.6
  let button := alistSet [("small", 0.2), ("medium", 0.2), ("large", 0.2)]
    r.visual.button_size.str 0.6
  { corner_radius := corner
    typography_weight := typo
    button_size := button
    genre_weights := infer_genre_weights r }

/-- `ConstraintBuilder._calculate_exploration_budget`: table lookup on the
exploration tolerance (the `.get(..., 0.25)` default is unreachable because
the tolerance is a closed enumeration). -/
def calculate_exploration_budget (r : ReducerOutput) : ℚ :=
  match r.interaction.exploration_tolerance with
  | .low => 0.1
  | .medium => 0.25
  | .high => 0.4

/-- `ConstraintBuilder.build`. -/
def build_constraints (r : ReducerOutput) (ctx : ReducerContext) : Constraints :=
  { hard := build_hard_constraints r ctx
    soft := build_soft_preferences r
    exploration_budget := calculate_exploration_budget r }

/-! ## Component selector (`app/pipeline/component_selector.py`)

The single source of nondeterminism, `random.random()`, is modelled as an
ambient stream `rand : ℕ → ℚ` of draws; the selector consumes one draw per
required slot type that still has candidates, exactly as the source calls
`random.random()` once per non-empty slot. -/

/-- `ComponentSelector._apply_hard_constraints`: drop recently-used ids,
explicitly excluded ids, and mobile-unsupported candidates on mobile. -/
def apply_hard_constraints (candidates : List ComponentCandidate)
    (hard : HardConstraints) (recently_used : List String) : List ComponentCandidate :=
  candidates.filter (fun c =>
    !(recently_used.contains c.component_id) &&
    !(hard.excluded_component_ids.contains c.component_id) &&
    !(hard.device_type == some "mobile" && !c.supports_mobile))

/-- `ComponentSelector._score_by_preferences`: preference score is the genre
weight, defaulting to 0.1 when the genre is absent from the weight table. -/
def score_by_preferences (candidates : List ComponentCandidate)
    (soft : SoftPreferences) : List ComponentCandidate :=
  candidates.map (fun c =>
    { c with preference_score := (alistGet soft.genre_weights c.genre).getD 0.1 })

/-- Sort key used by the selector: `preference_score + semantic_score`. -/
def selScore (c : ComponentCandidate) : ℚ :=
  c.preference_score + c.semantic_score

/-- Python's stable `list.sort(key=..., reverse=True)`: descending by key,
ties keep their original order. A stable sort for a total preorder is unique,
so the stable insertion sort below computes it. -/
def sortCandidates (l : List ComponentCandidate) : List ComponentCandidate :=
  List.insertionSort (fun a b => selScore b ≤ selScore a) l

/-- Per-slot selection loop of `ComponentSelector.select` (step 3 onward):
for each required type, gather candidates of that type (skip the slot if
none), draw once against the exploration budget, and route the pick into the
exploration list (first loud candidate) or the selected list (top-scored). -/
def select_loop (scored : List ComponentCandidate) (budget : ℚ) (rand : ℕ → ℚ) :
    List String → ℕ → List ComponentCandidate × List ComponentCandidate
  | [], _ => ([], [])
  | t :: ts, k =>
    let type_candidates := scored.filter (fun c => c.component_type == t)
    match type_candidates with
    | [] => select_loop scored budget rand ts k
    | _ :: _ =>
      let sorted := sortCandidates type_candidates
      if rand k < budget then
        match sorted.filter (fun c => c.genre == "loud") with
        | l :: _ =>
          let rest := select_loop scored budget rand ts (k + 1)
          (rest.1, l :: rest.2)
        | [] =>
          let rest := select_loop scored budget rand ts (k + 1)
          match sorted with
          | c :: _ => (c :: rest.1, rest.2)
          | [] => rest
      else
        let rest := select_loop scored budget rand ts (k + 1)
        match sorted with
        | c :: _ => (c :: rest.1, rest.2)
        | [] => rest

/-- `ComponentSelector.select`. -/
def select (catalog : List ComponentCandidate) (constraints : Constraints)
    (recently_used : List String) (required_types : List String)
    (rand : ℕ → ℚ) (now : ℚ) : SelectionResult :=
  let filtered := apply_hard_constraints catalog constraints.hard recently_used
  let scored := score_by_preferences filtered constraints.soft
  let picks := select_loop scored constraints.exploration_budget rand required_types 0
  { selected_components := picks.1
    exploration_components := picks.2
    total_candidates_considered := catalog.length
    selection_timestamp := now }

/-- Static component catalog (`COMPONENT_CATALOG`). -/
def COMPONENT_CATALOG : List ComponentCandidate :=
  [{ component_id := "hero_base_v1", component_type := "hero", genre := "base",
     variant := "v1", tags := ["hero", "full-width"] },
   { component_id := "hero_minimalist_v1", component_type := "hero", genre := "minimalist",
     variant := "v1", tags := ["hero", "clean"] },
   { component_id := "hero_neobrutalist_v1", component_type := "hero", genre := "neobrutalist",
     variant := "v1", tags := ["hero", "bold"] },
   { component_id := "hero_glassmorphism_v1", component_type := "hero", genre := "glassmorphism",
     variant := "v1", tags := ["hero", "blur"] },
   { component_id := "hero_loud_v1", component_type := "hero", genre := "loud",
     variant := "v1", tags := ["hero", "test"] },
   { component_id := "grid_base_v1", component_type := "product-grid", genre := "base",
     variant := "v1", tags := ["grid", "products"] },
   { component_id := "grid_minimalist_v1", component_type := "product-grid", genre := "minimalist",
     variant := "v1", tags := ["grid", "clean"] },
   { component_id := "grid_neobrutalist_v1", component_type := "product-grid", genre := "neobrutalist",
     variant := "v1", tags := ["grid", "bold"] },
   { component_id := "grid_glassmorphism_v1", component_type := "product-grid", genre := "glassmorphism",
     variant := "v1", tags := ["grid", "blur"] },
   { component_id := "cta_base_v1", component_type := "cta", genre := "base",
     variant := "v1", tags := ["cta", "action"] },
   { component_id := "cta_minimalist_v1", component_type := "cta", genre := "minimalist",
     variant := "v1", tags := ["cta", "subtle"] },
   { component_id := "cta_loud_v1", component_type := "cta", genre := "loud",
     variant := "v1", tags := ["cta", "test", "high-contrast"] }]

/-! ## Layout assembler (`app/pipeline/layout_assembler.py`)

Wall-clock time is an ambient input: `assemble` receives the current time
`now` (seconds, as a rational) standing for `time.time()`, and the measured
assembly duration for the metadata. JSON values appearing in component props
are strings, non-negative integers and booleans. -/

/-- JSON value as produced by `model_dump` of the layout models. -/
inductive JVal where
  | jstr (s : String)
  | jnat (n : ℕ)
  | jbool (b : Bool)
deriving DecidableEq

/-- Single component in the layout schema (`LayoutComponent`). -/
structure LayoutComponent where
  id : String
  type : String
  variant : String
  genre : String
  props : List (String × JVal)
deriving DecidableEq

/-- Design tokens (`LayoutTokens`). -/
structure LayoutTokens where
  theme : String := "light"
  border_radius : String := "8px"
  font_weight : String := "400"
  density : String := "medium"
  accent_color : String := "#3b82f6"
deriving DecidableEq

/-- Metadata block attached to the schema (not part of the hash). -/
structure LayoutMetadata where
  exploration_count : ℕ
  total_components : ℕ
  assembly_time_ms : ℚ
deriving DecidableEq

/-- Complete layout schema (`LayoutSchema`). -/
structure LayoutSchema where
  layout_id : String
  layout_hash : String
  session_id : String
  timestamp : ℚ
  components : List LayoutComponent
  tokens : LayoutTokens
  metadata : LayoutMetadata
deriving DecidableEq

/-- Lowercase hexadecimal digit. -/
def hexDigitChar (n : ℕ) : Char :=
  if n < 10 then Char.ofNat (48 + n) else Char.ofNat (87 + n % 16)

/-- JSON `\uXXXX` escape of a code unit. -/
def uEscape (n : ℕ) : String :=
  "\\u" ++ String.mk [hexDigitChar (n / 4096 % 16), hexDigitChar (n / 256 % 16),
    hexDigitChar (n / 16 % 16), hexDigitChar (n % 16)]

/-- Escape of one character, as `json.dumps` (default `ensure_ascii=True`)
renders it: specials get two-character escapes, other control and non-ASCII
characters get `\uXXXX` (astral-plane characters as a surrogate pair). -/
def escapeChar (c : Char) : String :=
  if c = '"' then "\\\""
  else if c = '\\' then "\\\\"
  else if c = '\n' then "\\n"
  else if c = '\t' then "\\t"
  else if c = '\r' then "\\r"
  else if c.toNat = 8 then "\\b"
  else if c.toNat = 12 then "\\f"
  else if c.toNat < 32 then uEscape c.toNat
  else if c.toNat < 127 then String.singleton c
  else if c.toNat < 65536 then uEscape c.toNat
  else
    uEscape (55296 + (c.toNat - 65536) / 1024) ++ uEscape (56320 + (c.toNat - 65536) % 1024)

/-- JSON string literal. -/
def quoteJson (s : String) : String :=
  "\"" ++ String.join (s.data.map escapeChar) ++ "\""

/-- Dict keys sorted lexicographically by code point (`sort_keys=True`). -/
def sortByKey (l : List (String × String)) : List (String × String) :=
  List.insertionSort (fun a b => a.1 ≤ b.1) l

/-- Serialization of one JSON value (`json.dumps` with its default
separators). -/
def jdump : JVal → String
  | .jstr s => quoteJson s
  | .jnat n => toString n
  | .jbool b => if b then "true" else "false"

/-- Serialization of a JSON object whose values are scalars, with keys
sorted. -/
def jdumpObj (fields : List (String × JVal)) : String :=
  let fs := sortByKey (fields.map (fun p => (p.1, jdump p.2)))
  "\x7b" ++ String.intercalate ", " (fs.map (fun p => quoteJson p.1 ++ ": " ++ p.2)) ++ "\x7d"

/-- Serialization of `LayoutComponent.model_dump()` with sorted keys. The
key order `genre < id < props < type < variant` is fixed here; `props` is a
nested object serialized with its own keys sorted. -/
def componentJson (c : LayoutComponent) : String :=
  "\x7b" ++ "\"genre\": " ++ quoteJson c.genre ++
  ", \"id\": " ++ quoteJson c.id ++
  ", \"props\": " ++ jdumpObj c.props ++
  ", \"type\": " ++ quoteJson c.type ++
  ", \"variant\": " ++ quoteJson c.variant ++ "\x7d"

/-- Serialization of `LayoutTokens.model_dump()` with sorted keys
(`accent_color < border_radius < density < font_weight < theme`). -/
def tokensJson (t : LayoutTokens) : String :=
  "\x7b" ++ "\"accent_color\": " ++ quoteJson t.accent_color ++
  ", \"border_radius\": " ++ quoteJson t.border_radius ++
  ", \"density\": " ++ quoteJson t.density ++
  ", \"font_weight\": " ++ quoteJson t.font_weight ++
  ", \"theme\": " ++ quoteJson t.theme ++ "\x7d"

/-- The stable representation hashed by `LayoutAssembler._compute_hash`:
`json.dumps({"components": [...], "tokens": {...}}, sort_keys=True)`. It
contains only the components and the tokens — no session id, no timestamp. -/
def hashInput (components : List LayoutComponent) (tokens : LayoutTokens) : String :=
  "\x7b" ++ "\"components\": [" ++
  String.intercalate ", " (components.map componentJson) ++
  "], \"tokens\": " ++ tokensJson tokens ++ "\x7d"

/-! SHA-256, on byte lists, all words reduced mod `2^32`. -/

/-- Right rotation of a 32-bit word. -/
def rotr32 (n x : ℕ) : ℕ :=
  ((x >>> n) ||| (x <<< (32 - n))) % 2 ^ 32

/-- SHA-256 small sigma 0. -/
def ssig0 (x : ℕ) : ℕ := rotr32 7 x ^^^ rotr32 18 x ^^^ (x >>> 3)

/-- SHA-256 small sigma 1. -/
def ssig1 (x : ℕ) : ℕ := rotr32 17 x ^^^ rotr32 19 x ^^^ (x >>> 10)

/-- SHA-256 big sigma 0. -/
def bsig0 (x : ℕ) : ℕ := rotr32 2 x ^^^ rotr32 13 x ^^^ rotr32 22 x

/-- SHA-256 big sigma 1. -/
def bsig1 (x : ℕ) : ℕ := rotr32 6 x ^^^ rotr32 11 x ^^^ rotr32 25 x

/-- SHA-256 round constants. -/
def sha256K : List ℕ :=
  [1116352408, 1899447441, 3049323471, 3921009573, 961987163, 1508970993,
   2453635748, 2870763221, 3624381080, 310598401, 607225278, 1426881987,
   1925078388, 2162078206, 2614888103, 3248222580, 3835390401, 4022224774,
   264347078, 604807628, 770255983, 1249150122, 1555081692, 1996064986,
   2554220882, 2821834349, 2952996808, 3210313671, 3336571891, 3584528711,
   113926993, 338241895, 666307205, 773529912, 1294757372, 1396182291,
   1695183700, 1986661051, 2177026350, 2456956037, 2730485921, 2820302411,
   3259730800, 3345764771, 3516065817, 3600352804, 4094571909, 275423344,
   430227734, 506948616, 659060556, 883997877, 958139571, 1322822218,
   1537002063, 1747873779, 1955562222, 2024104815, 2227730452, 2361852424,
   2428436474, 2756734187, 3204031479, 3329325298]

/-- SHA-256 initial hash values. -/
def sha256H0 : List ℕ :=
  [1779033703, 3144134277, 1013904242, 2773480762,
   1359893119, 2600822924, 528734635, 1541459225]

/-- Merkle–Damgård padding: append `0x80`, zeros to 56 mod 64, then the
bit length as 8 big-endian bytes. -/
def sha256pad (msg : List ℕ) : List ℕ :=
  let zeros := (119 - msg.length % 64) % 64
  let bitLen := msg.length * 8 % 2 ^ 64
  msg ++ [128] ++ List.replicate zeros 0 ++
    (List.range 8).map (fun i => bitLen >>> (8 * (7 - i)) % 256)

/-- Group bytes into big-endian 32-bit words. -/
def bytesToWords : List ℕ → List ℕ
  | b0 :: b1 :: b2 :: b3 :: rest =>
    (b0 * 16777216 + b1 * 65536 + b2 * 256 + b3) :: bytesToWords rest
  | _ => []

/-- Split a word list into 16-word blocks. -/
def chunk16 : List ℕ → List (List ℕ)
  | [] => []
  | x :: xs => (x :: xs).take 16 :: chunk16 ((x :: xs).drop 16)
termination_by l => l.length
decreasing_by
  simp only [List.length_drop, List.length_cons]
  omega

/-- Extend a 16-word block to the 64-word message schedule. -/
def msgSchedule (ws : List ℕ) : List ℕ :=
  (List.range 48).foldl
    (fun acc j =>
      let i := 16 + j
      acc ++ [(acc.getD (i - 16) 0 + ssig0 (acc.getD (i - 15) 0) +
               acc.getD (i - 7) 0 + ssig1 (acc.getD (i - 2) 0)) % 2 ^ 32])
    ws

/-- One SHA-256 compression round on the 8-word state. -/
def compressStep (st : List ℕ) (kw : ℕ × ℕ) : List ℕ :=
  match st with
  | [a, b, c, d, e, f, g, h] =>
    let ch := (e &&& f) ^^^ ((e ^^^ 4294967295) &&& g)
    let t1 := (h + bsig1 e + ch + kw.1 + kw.2) % 2 ^ 32
    let maj := (a &&& b) ^^^ (a &&& c) ^^^ (b &&& c)
    let t2 := (bsig0 a + maj) % 2 ^ 32
    [(t1 + t2) % 2 ^ 32, a, b, c, (d + t1) % 2 ^ 32, e, f, g]
  | st => st

/-- Process one block, updating the 8 hash words. -/
def processChunk (hs : List ℕ) (chunk : List ℕ) : List ℕ :=
  let st := (sha256K.zip (msgSchedule chunk)).foldl compressStep hs
  (hs.zip st).map (fun p => (p.1 + p.2) % 2 ^ 32)

/-- Hash words of a byte message. -/
def sha256Words (msg : List ℕ) : List ℕ :=
  (chunk16 (bytesToWords (sha256pad msg))).foldl processChunk sha256H0

/-- Lowercase hex rendering of a 32-bit word. -/
def wordToHex (w : ℕ) : String :=
  String.mk ((List.range 8).map (fun i => hexDigitChar (w >>> (4 * (7 - i)) % 16)))

/-- Hex digest of a byte message, as `hashlib.sha256(...).hexdigest()`. -/
def sha256hex (msg : List ℕ) : String :=
  String.join ((sha256Words msg).map wordToHex)

/-- UTF-8 encoding of a string (`str.encode()`). -/
def utf8Bytes (s : String) : List ℕ :=
  s.toUTF8.data.toList.map (·.toNat)

/-- `LayoutAssembler._compute_hash`. -/
def compute_hash (components : List LayoutComponent) (tokens : LayoutTokens) : String :=
  sha256hex (utf8Bytes (hashInput components tokens))

/-- `LayoutAssembler._default_props_for_type`. -/
def default_props_for_type (component_type : String) : List (String × JVal) :=
  if component_type == "hero" then
    [("title", .jstr "Welcome"), ("subtitle", .jstr "Discover our products")]
  else if component_type == "product-grid" then
    [("columns", .jnat 4), ("limit", .jnat 12)]
  else if component_type == "cta" then
    [("title", .jstr "Ready to get started?"), ("buttonText", .jstr "Shop Now")]
  else []

/-- `LayoutAssembler._build_components`: selected components first, then
exploration components with the two extra marker props. -/
def build_components (selection : SelectionResult) : List LayoutComponent :=
  selection.selected_components.map (fun c =>
    { id := c.component_id, type := c.component_type, variant := c.variant,
      genre := c.genre, props := default_props_for_type c.component_type }) ++
  selection.exploration_components.map (fun c =>
    { id := c.component_id, type := c.component_type, variant := c.variant,
      genre := c.genre,
      props := default_props_for_type c.component_type ++
        [("_is_exploration", .jbool true), ("_module_loud", .jbool true)] })

/-- `LayoutAssembler._extract_tokens` (the `.get` defaults of the source are
unreachable because the traits are closed enumerations). -/
def extract_tokens (r : ReducerOutput) : LayoutTokens :=
  { theme :=
      match r.visual.color_scheme with
      | .dark => "dark" | .light => "light" | .vibrant => "vibrant"
    border_radius :=
      match r.visual.corner_radius with
      | .sharp => "0px" | .rounded => "8px" | .pill => "9999px"
    font_weight :=
      match r.visual.typography_weight with
      | .light => "300" | .regular => "400" | .bold => "700"
    density := r.visual.density.str
    accent_color := "#3b82f6" }

/-- `LayoutAssembler.assemble`. The source reads the clock twice (for
`layout_id` and for `timestamp`), microseconds apart within one call; both
reads are modelled by the single ambient `now`. `previous_hash` only drives
a log line in the source and does not influence the result. -/
def assemble (session_id : String) (selection : SelectionResult)
    (reducer_output : ReducerOutput) (previous_hash : Option String)
    (now : ℚ) (assembly_ms : ℚ) : LayoutSchema :=
  let components := build_components selection
  let tokens := extract_tokens reducer_output
  let layout_id := "layout_" ++ session_id ++ "_" ++ toString (pyInt now)
  let layout_hash := compute_hash components tokens
  { layout_id := layout_id
    layout_hash := layout_hash
    session_id := session_id
    timestamp := now
    components := components
    tokens := tokens
    metadata :=
      { exploration_count := selection.exploration_components.length
        total_components := components.length
        assembly_time_ms := assembly_ms } }

/-! ## Recently-used set (`ReducerPipeline._update_recently_used`)

The source keeps the recently-used ids in a Python `set`, adds the id of
every selected component, and on overflow keeps `set(list(current)[-20:])`.
A `set` has no insertion order: the order produced by `list(current)` is an
unspecified enumeration of the set, so the update is modelled as a function
of that enumeration, quantified over all enumerations of the union of the
previous ids and the newly added selected ids. -/

/-- Cap applied by `_update_recently_used`: keep the last 20 entries of the
enumeration `list(current)` when the set exceeds 20 elements. -/
def update_recently_used (order : List String) : List String :=
  if order.length > 20 then order.drop (order.length - 20) else order

/-- The proposition that `order` is an enumeration of the set
`current ∪ selectedIds` — the possible outcomes of `list(current)` after the
`add` loop. -/
def enumerates (order current selectedIds : List String) : Prop :=
  order.Nodup ∧ ∀ x, x ∈ order ↔ (x ∈ current ∨ x ∈ selectedIds)

/-- Ids handed to the recently-used set by `_update_recently_used`: exactly
the ids of the selected components — exploration components are not added. -/
def addedIds (selection : SelectionResult) : List String :=
  selection.selected_components.map (·.component_id)

/-! ## Single-flight lock (`app/api/events.py`, `process_telemetry_batch`)

The inbound entry point is modelled as a transition system over two
concurrent invocations for the same session. Each invocation performs, in
order: the pre-lock MongoDB telemetry writes (which touch no session key),
the atomic `SET agent_lock:{session_id} NX` (`acquire`), and — only when the
set succeeds — the locked section (session-state read plus agent inference,
then the SSE publish) followed by the `finally` release of the lock. A
failed set jumps directly to `skipped` with no further action. Scheduling
interleaves the two invocations arbitrarily, one atomic action at a time. -/

/-- Program counter of one invocation of `process_telemetry_batch`. -/
inductive AgentPC where
  | preWrite
  | acquire
  | working
  | publishing
  | unlocking
  | done
  | skipped
deriving DecidableEq

/-- Shared state of the two invocations: the lock key for the session plus
each invocation's position and whether it has emitted its SSE layout
update. -/
structure LockState where
  lock : Bool
  pc1 : AgentPC
  pc2 : AgentPC
  pub1 : Bool
  pub2 : Bool
deriving DecidableEq

/-- Both invocations at the start, lock absent, nothing emitted. -/
def initLockState : LockState :=
  { lock := false, pc1 := .preWrite, pc2 := .preWrite, pub1 := false, pub2 := false }

/-- One atomic action of either invocation. -/
inductive LockStep : LockState → LockState → Prop where
  | telemetry1 (s : LockState) (h : s.pc1 = .preWrite) :
      LockStep s { s with pc1 := .acquire }
  | acquireOk1 (s : LockState) (h : s.pc1 = .acquire) (hl : s.lock = false) :
      LockStep s { s with lock := true, pc1 := .working }
  | acquireFail1 (s : LockState) (h : s.pc1 = .acquire) (hl : s.lock = true) :
      LockStep s { s with pc1 := .skipped }
  | work1 (s : LockState) (h : s.pc1 = .working) :
      LockStep s { s with pc1 := .publishing }
  | publish1 (s : LockState) (h : s.pc1 = .publishing) :
      LockStep s { s with pc1 := .unlocking, pub1 := true }
  | release1 (s : LockState) (h : s.pc1 = .unlocking) :
      LockStep s { s with lock := false, pc1 := .done }
  | telemetry2 (s : LockState) (h : s.pc2 = .preWrite) :
      LockStep s { s with pc2 := .acquire }
  | acquireOk2 (s : LockState) (h : s.pc2 = .acquire) (hl : s.lock = false) :
      LockStep s { s with lock := true, pc2 := .working }
  | acquireFail2 (s : LockState) (h : s.pc2 = .acquire) (hl : s.lock = true) :
      LockStep s { s with pc2 := .skipped }
  | work2 (s : LockState) (h : s.pc2 = .working) :
      LockStep s { s with pc2 := .publishing }
  | publish2 (s : LockState) (h : s.pc2 = .publishing) :
      LockStep s { s with pc2 := .unlocking, pub2 := true }
  | release2 (s : LockState) (h : s.pc2 = .unlocking) :
      LockStep s { s with lock := false, pc2 := .done }

/-- States reachable from the initial state by interleaving. -/
def LockReachable (s : LockState) : Prop :=
  Relation.ReflTransGen LockStep initLockState s

/-- The invocation is past a successful lock acquisition and has not yet
released: it is inside the single-flight critical section (session-state
read, agent inference, SSE publish, lock delete). -/
def inCritical (pc : AgentPC) : Prop :=
  pc = .working ∨ pc = .publishing ∨ pc = .unlocking

/-- Inductive invariant: a critical invocation holds the lock, at most one
invocation is critical at a time, and an invocation that skipped at the
lock step — or has not yet passed it — has emitted nothing. -/
def LockInv (s : LockState) : Prop :=
  (inCritical s.pc1 → s.lock = true) ∧
  (inCritical s.pc2 → s.lock = true) ∧
  ¬(inCritical s.pc1 ∧ inCritical s.pc2) ∧
  (s.pc1 = .skipped ∨ s.pc1 = .preWrite ∨ s.pc1 = .acquire → s.pub1 = false) ∧
  (s.pc2 = .skipped ∨ s.pc2 = .preWrite ∨ s.pc2 = .acquire → s.pub2 = false)

/-! ## Vector module (`app/vector/feature_schema.py`, `profile_vectors.py`,
`vector_store.py`)

The numpy float computations are embedded over the reals. -/

/-- Encoding table (`ENCODINGS`). -/
def ENCODINGS : List (String × List (String × ℚ)) :=
  [("color_scheme", [("light", 0.0), ("dark", 1.0), ("vibrant", 0.5)]),
   ("corner_radius", [("sharp", 0.0), ("rounded", 0.5), ("pill", 1.0)]),
   ("density", [("low", 0.0), ("medium", 0.5), ("high", 1.0)]),
   ("typography_weight", [("light", 0.0), ("regular", 0.5), ("bold", 1.0)]),
   ("button_size", [("small", 0.0), ("medium", 0.5), ("large", 1.0)]),
   ("decision_confidence", [("high", 0.2), ("medium", 0.5), ("low", 0.8)]),
   ("exploration_tolerance", [("low", 0.2), ("medium", 0.5), ("high", 0.8)]),
   ("engagement_depth", [("shallow", 0.2), ("moderate", 0.5), ("deep", 0.8)])]

/-- `encode_value`: table lookup with neutral default 0.5 for unknown
categories or values. -/
def encode_value (category value : String) : ℚ :=
  match alistGet ENCODINGS category with
  | some m =>
    match alistGet m value with
    | some x => x
    | none => 0.5
  | none => 0.5

/-- Euclidean norm `np.linalg.norm`. -/
noncomputable def l2norm (v : List ℝ) : ℝ :=
  Real.sqrt ((v.map (fun x => x ^ 2)).sum)

/-- `normalize_vector`: divide by the norm when it is positive, return the
vector unchanged otherwise. -/
noncomputable def normalize_vector (v : List ℝ) : List ℝ :=
  let norm := l2norm v
  if 0 < norm then v.map (fun x => x / norm) else v

/-- Clamp to `[0, 1]` (`max(0.0, min(1.0, x))`). -/
noncomputable def clamp01 (x : ℝ) : ℝ := max 0 (min 1 x)

/-- `profile_to_vector`: the 12 dimensions in index order (darkness,
vibrancy, corner roundness, density, typography weight, button size,
minimalism, brutalism, glass effect, loudness, interactivity, exploration),
followed by L2 normalization. -/
noncomputable def profile_to_vector (profile : ReducerOutput) : List ℝ :=
  let darkness : ℝ :=
    match profile.visual.color_scheme with
    | .dark => 1 | .vibrant => 0.3 | .light => 0
  let vibrancy : ℝ :=
    match profile.visual.color_scheme with
    | .dark => 0.4 | .vibrant => 1 | .light => 0.3
  let corner : ℝ := (encode_value "corner_radius" profile.visual.corner_radius.str : ℚ)
  let density : ℝ := (encode_value "density" profile.visual.density.str : ℚ)
  let typo : ℝ := (encode_value "typography_weight" profile.visual.typography_weight.str : ℚ)
  let button : ℝ := (encode_value "button_size" profile.visual.button_size.str : ℚ)
  let minimalism_score := (1 - density) * 0.5 + (1 - typo) * 0.3 + (1 - corner) * 0.2
  let brutalism_score := vibrancy * 0.4 + typo * 0.4 + (1 - corner) * 0.2
  let glass_score := corner * 0.5 + max 0 (1 - |density - 0.5| * 2) * 0.3 + darkness * 0.2
  let exploration_factor : ℝ :=
    (encode_value "exploration_tolerance" profile.interaction.exploration_tolerance.str : ℚ)
  let loudness_score := vibrancy * 0.4 + button * 0.3 + exploration_factor * 0.3
  let interactivity : ℝ :=
    (encode_value "engagement_depth" profile.behavioral.engagement_depth.str : ℚ)
  normalize_vector
    [darkness, vibrancy, corner, density, typo, button,
     clamp01 minimalism_score, clamp01 brutalism_score,
     clamp01 glass_score, clamp01 loudness_score,
     interactivity, exploration_factor]

/-- Parsed form of the loosely-typed `UserProfile` dict handed to
`user_profile_to_vector`: each trait group defaults when missing. -/
structure ProfileDict where
  visual : Option VisualTraits := none
  interaction : Option InteractionTraits := none
  behavioral : Option BehavioralTraits := none

/-- `user_profile_to_vector`. -/
noncomputable def user_profile_to_vector (profile_dict : ProfileDict) : List ℝ :=
  profile_to_vector
    { visual := profile_dict.visual.getD {}
      interaction := profile_dict.interaction.getD {}
      behavioral := profile_dict.behavioral.getD {} }

/-- Metadata stored per module by `initialize_vector_store`. -/
structure ModuleMetadata where
  layout : String := ""
  genre : String := ""
  tags : List String := []

/-- Result entry of a vector search (`SearchResult`). -/
structure SearchResult where
  id : ℤ
  score : ℝ
  vector : List ℝ

/-- In-memory vector store (`VectorStore`): module id to stored (already
normalized by `add`) vector, and module id to metadata. -/
structure VectorStore where
  vectors : List (ℤ × List ℝ)
  metadata : List (ℤ × ModuleMetadata)

/-- Integer-keyed dict lookup. -/
def izGet {α : Type} (d : List (ℤ × α)) (k : ℤ) : Option α :=
  (d.find? (fun p => p.1 == k)).map (·.2)

/-- Dot product `np.dot`. -/
noncomputable def dotProduct (a b : List ℝ) : ℝ :=
  ((a.zip b).map (fun p => p.1 * p.2)).sum

section
open scoped Classical

/-- `VectorStore.search` without a filter function: normalize the query,
score every stored vector by cosine similarity, sort descending (stable)
and keep the top k. -/
noncomputable def vs_search (store : VectorStore) (query : List ℝ) (top_k : ℕ) :
    List SearchResult :=
  if store.vectors = [] then []
  else
    let qnorm := l2norm query
    let q := if 0 < qnorm then query.map (fun x => x / qnorm) else query
    let results := store.vectors.map (fun p =>
      { id := p.1, score := dotProduct q p.2, vector := p.2 : SearchResult })
    (List.insertionSort (fun a b => b.score ≤ a.score) results).take top_k

/-- `search_similar_modules`: ignores its `module_types` argument and
returns a dict with the single key `"recommended"`. -/
noncomputable def search_similar_modules (store : VectorStore)
    (profile_vector : List ℝ) (module_types : Option (List String))
    (top_k : ℕ) : List (String × List SearchResult) :=
  [("recommended", vs_search store profile_vector top_k)]

/-- `get_recommended_genre`: reads the `"hero"` key of the search result
dict, falling back to `"base"` when it is absent or empty. -/
noncomputable def get_recommended_genre (store : VectorStore)
    (profile_dict : ProfileDict) : String :=
  let profile_vec := user_profile_to_vector profile_dict
  let results := search_similar_modules store profile_vec (some ["hero"]) 5
  let hero_results := (alistGet results "hero").getD []
  match hero_results with
  | top_result :: _ =>
    match izGet store.metadata top_result.id with
    | some m => m.genre
    | none => "base"
  | [] => "base"

/-- `get_recommended_template_id`: reads the `"product-grid"` key of the
search result dict, falling back to id 0 when it is absent or empty. -/
noncomputable def get_recommended_template_id (store : VectorStore)
    (profile_dict : ProfileDict) : ℤ :=
  let profile_vec := user_profile_to_vector profile_dict
  let results := search_similar_modules store profile_vec (some ["product-grid"]) 5
  let grid_results := (alistGet results "product-grid").getD []
  match grid_results with
  | top_result :: _ => top_result.id
  | [] => 0

end

/-! ## Helper lemmas -/

/-- The lock invariant holds initially. -/
lemma lockInv_init : LockInv initLockState := by
  simp [LockInv, initLockState, inCritical]

/-- The lock invariant is preserved by every step. -/
lemma lockInv_step {s s' : LockState} (hs : LockInv s) (st : LockStep s s') : LockInv s' := by
  obtain ⟨h1, h2, h12, hp1, hp2⟩ := hs
  cases st <;> simp_all [LockInv, inCritical]

/-- The lock invariant holds in every reachable state. -/
lemma lockInv_reachable {s : LockState} (h : LockReachable s) : LockInv s := by
  induction h with
  | refl => exact lockInv_init
  | tail _ hstep ih => exact lockInv_step ih hstep

/-- Sorting does not change membership. -/
lemma mem_sortCandidates {c : ComponentCandidate} {l : List ComponentCandidate} :
    c ∈ sortCandidates l ↔ c ∈ l := by
  simp [sortCandidates, List.mem_insertionSort]

/-- Every component routed into either output list of the selection loop is
one of the scored candidates. -/
lemma select_loop_mem (scored : List ComponentCandidate) (budget : ℚ) (rand : ℕ → ℚ) :
    ∀ (types : List String) (k : ℕ),
      (∀ c ∈ (select_loop scored budget rand types k).1, c ∈ scored) ∧
      (∀ c ∈ (select_loop scored budget rand types k).2, c ∈ scored) := by
  intro types
  induction types with
  | nil => intro k; simp [select_loop]
  | cons t ts ih =>
    intro k
    simp only [select_loop]
    cases hf : scored.filter (fun c => c.component_type == t) with
    | nil => simpa using ih k
    | cons x xs =>
      have hsub : ∀ c ∈ sortCandidates (x :: xs), c ∈ scored := by
        intro c hc
        have := mem_sortCandidates.mp hc
        rw [← hf] at this
        exact (List.mem_filter.mp this).1
      by_cases hr : rand k < budget
      · simp only [hr, if_true]
        cases hl : (sortCandidates (x :: xs)).filter (fun c => c.genre == "loud") with
        | nil =>
          cases hs : sortCandidates (x :: xs) with
          | nil => simpa using ih (k + 1)
          | cons c' tl =>
            constructor
            · intro c hc
              rcases List.mem_cons.mp hc with rfl | hc
              · exact hsub c (hs ▸ List.mem_cons_self _ _)
              · exact (ih (k + 1)).1 c hc
            · exact (ih (k + 1)).2
        | cons l tl =>
          constructor
          · exact (ih (k + 1)).1
          · intro c hc
            rcases List.mem_cons.mp hc with rfl | hc
            · exact hsub c ((List.mem_filter.mp (hl ▸ List.mem_cons_self _ _)).1)
            · exact (ih (k + 1)).2 c hc
      · simp only [hr, if_false]
        cases hs : sortCandidates (x :: xs) with
        | nil => simpa using ih (k + 1)
        | cons c' tl =>
          constructor
          · intro c hc
            rcases List.mem_cons.mp hc with rfl | hc
            · exact hsub c (hs ▸ List.mem_cons_self _ _)
            · exact (ih (k + 1)).1 c hc
          · exact (ih (k + 1)).2

/-- With a zero exploration budget and non-negative draws, the exploration
branch of the loop is unreachable. -/
lemma select_loop_expl_nil (scored : List ComponentCandidate) (rand : ℕ → ℚ)
    (hr : ∀ n, 0 ≤ rand n) :
    ∀ (types : List String) (k : ℕ), (select_loop scored 0 rand types k).2 = [] := by
  intro types
  induction types with
  | nil => intro k; simp [select_loop]
  | cons t ts ih =>
    intro k
    simp only [select_loop]
    cases hf : scored.filter (fun c => c.component_type == t) with
    | nil => simpa using ih k
    | cons x xs =>
      have hneg : ¬(rand k < 0) := not_lt.mpr (hr k)
      simp only [hneg, if_false]
      cases hs : sortCandidates (x :: xs) with
      | nil => simpa using ih (k + 1)
      | cons c' tl => simpa using ih (k + 1)

/-- The genre-weight computation reads only the density and the engagement
depth of the profile. -/
lemma infer_genre_weights_only (cs : ColorScheme) (cr : CornerRadius) (bs : ButtonSize)
    (tw : TypographyWeight) (it : InteractionTraits) (sva : SpeedVsAccuracy)
    (d : Density) (ed : EngagementDepth) :
    infer_genre_weights ⟨⟨cs, cr, bs, d, tw⟩, it, ⟨sva, ed⟩⟩ =
      infer_genre_weights ⟨⟨.light, .rounded, .medium, d, .regular⟩, {}, ⟨.balanced, ed⟩⟩ := rfl

/-! ## Claim theorems -/

/-- C1. Single-flight mutual exclusion: in every state reachable by
interleaving two `process_telemetry_batch` invocations for the same session,
at most one invocation is past the successful `SET NX` lock acquisition (the
region containing the session-state read, the agent run and the SSE
publish), and an invocation whose lock acquisition failed is at `skipped`
having emitted nothing. -/
theorem claim_C1_single_flight (s : LockState) (h : LockReachable s) :
    ¬(inCritical s.pc1 ∧ inCritical s.pc2) ∧
    (s.pc1 = .skipped → s.pub1 = false) ∧
    (s.pc2 = .skipped → s.pub2 = false) := by
  obtain ⟨-, -, h12, hp1, hp2⟩ := lockInv_reachable h
  exact ⟨h12, fun hs => hp1 (Or.inl hs), fun hs => hp2 (Or.inl hs)⟩

/-- C1 witness: the initial state is reachable and satisfies the mutual
exclusion property. -/
theorem claim_C1_single_flight_witness :
    LockReachable initLockState ∧
    ¬(inCritical initLockState.pc1 ∧ inCritical initLockState.pc2) :=
  ⟨Relation.ReflTransGen.refl,
   (claim_C1_single_flight initLockState Relation.ReflTransGen.refl).1⟩

/-- C3 counterexample: for the valid profile with medium density and deep
engagement the rounded genre weights sum to 0.999, which is off from 1 by
10⁻³, far outside the claimed 10⁻⁶ tolerance. -/
theorem claim_C3_counterexample :
    alistSum (infer_genre_weights
      { visual := { density := .medium }, behavioral := { engagement_depth := .deep } }) = 999/1000 ∧
    ¬(|alistSum (infer_genre_weights
      { visual := { density := .medium }, behavioral := { engagement_depth := .deep } }) - 1|
        ≤ 1/1000000) := by
  have h : alistSum (infer_genre_weights
      { visual := { density := .medium }, behavioral := { engagement_depth := .deep } })
      = 999/1000 := by
    with_unfolding_all rfl
  refine ⟨h, ?_⟩
  rw [h]
  rw [show (999:ℚ)/1000 - 1 = -(1/1000) by norm_num, abs_neg,
    abs_of_nonneg (by norm_num : (0:ℚ) ≤ 1/1000)]
  norm_num

/-- C3 amended: for every valid preference record the genre weights produced
by `_infer_genre_weights` sum to 1 within 10⁻³ (the sum is either exactly 1
or exactly 0.999; the claimed 10⁻⁶ tolerance fails because each weight is
rounded to 3 decimals after renormalization). -/
theorem claim_C3_weight_sum (r : ReducerOutput) :
    |alistSum (infer_genre_weights r) - 1| ≤ 1/1000 := by
  obtain ⟨⟨cs, cr, bs, d, tw⟩, it, ⟨sva, ed⟩⟩ := r
  rw [infer_genre_weights_only]
  cases d <;> cases ed
  · have h : alistSum (infer_genre_weights
        ⟨⟨.light, .rounded, .medium, .low, .regular⟩, {}, ⟨.balanced, .shallow⟩⟩)
        = 999/1000 := by with_unfolding_all rfl
    rw [h, abs_le]; constructor <;> norm_num
  · have h : alistSum (infer_genre_weights
        ⟨⟨.light, .rounded, .medium, .low, .regular⟩, {}, ⟨.balanced, .moderate⟩⟩)
        = 1 := by with_unfolding_all rfl
    rw [h, abs_le]; constructor <;> norm_num
  · have h : alistSum (infer_genre_weights
        ⟨⟨.light, .rounded, .medium, .low, .regular⟩, {}, ⟨.balanced, .deep⟩⟩)
        = 1 := by with_unfolding_all rfl
    rw [h, abs_le]; constructor <;> norm_num
  · have h : alistSum (infer_genre_weights
        ⟨⟨.light, .rounded, .medium, .medium, .regular⟩, {}, ⟨.balanced, .shallow⟩⟩)
        = 1 := by with_unfolding_all rfl
    rw [h, abs_le]; constructor <;> norm_num
  · have h : alistSum (infer_genre_weights
        ⟨⟨.light, .rounded, .medium, .medium, .regular⟩, {}, ⟨.balanced, .moderate⟩⟩)
        = 1 := by with_unfolding_all rfl
    rw [h, abs_le]; constructor <;> norm_num
  · have h : alistSum (infer_genre_weights
        ⟨⟨.light, .rounded, .medium, .medium, .regular⟩, {}, ⟨.balanced, .deep⟩⟩)
        = 999/1000 := by with_unfolding_all rfl
    rw [h, abs_le]; constructor <;> norm_num
  · have h : alistSum (infer_genre_weights
        ⟨⟨.light, .rounded, .medium, .high, .regular⟩, {}, ⟨.balanced, .shallow⟩⟩)
        = 1 := by with_unfolding_all rfl
    rw [h, abs_le]; constructor <;> norm_num
  · have h : alistSum (infer_genre_weights
        ⟨⟨.light, .rounded, .medium, .high, .regular⟩, {}, ⟨.balanced, .moderate⟩⟩)
        = 1 := by with_unfolding_all rfl
    rw [h, abs_le]; constructor <;> norm_num
  · have h : alistSum (infer_genre_weights
        ⟨⟨.light, .rounded, .medium, .high, .regular⟩, {}, ⟨.balanced, .deep⟩⟩)
        = 999/1000 := by with_unfolding_all rfl
    rw [h, abs_le]; constructor <;> norm_num

/-- C5. Exclusion respected: every component in `selected_components` has an
id outside both the recently-used set and the hard constraints' excluded
ids, for any catalog, constraints, required types and random draws. -/
theorem claim_C5_exclusion_respected (catalog : List ComponentCandidate)
    (constraints : Constraints) (recently_used : List String)
    (required_types : List String) (rand : ℕ → ℚ) (now : ℚ) :
    ∀ c ∈ (select catalog constraints recently_used required_types rand now).selected_components,
      c.component_id ∉ recently_used ∧
      c.component_id ∉ constraints.hard.excluded_component_ids := by
  intro c hc
  simp only [select] at hc
  have hmem := (select_loop_mem _ _ _ required_types 0).1 c hc
  simp only [score_by_preferences] at hmem
  obtain ⟨d, hd, rfl⟩ := List.mem_map.mp hmem
  obtain ⟨-, hpred⟩ := List.mem_filter.mp hd
  simp only [Bool.and_eq_true, Bool.not_eq_true'] at hpred
  show d.component_id ∉ recently_used ∧ d.component_id ∉ constraints.hard.excluded_component_ids
  refine ⟨fun hmem' => ?_, fun hmem' => ?_⟩
  · exact Bool.noConfusion ((List.elem_iff.mpr hmem').symm.trans hpred.1.1)
  · exact Bool.noConfusion ((List.elem_iff.mpr hmem').symm.trans hpred.1.2)

/-- C5 witness: on the static catalog with `hero_base_v1` recently used and
the hero slot requested, the pick is `hero_minimalist_v1`, whose id is in
neither exclusion set. -/
theorem claim_C5_exclusion_respected_witness :
    (ComponentCandidate.mk "hero_minimalist_v1" "hero" "minimalist" "v1"
        0 (1/4) 0 ["hero", "clean"] true true) ∈
      (select COMPONENT_CATALOG (build_constraints {} { session_id := "s" })
        ["hero_base_v1"] ["hero"] (fun _ => 1/2) 0).selected_components ∧
    "hero_minimalist_v1" ∉ ["hero_base_v1"] ∧
    "hero_minimalist_v1" ∉
      (build_constraints {} { session_id := "s" }).hard.excluded_component_ids := by
  have hmem : (ComponentCandidate.mk "hero_minimalist_v1" "hero" "minimalist" "v1"
      0 (1/4) 0 ["hero", "clean"] true true) ∈
      (select COMPONENT_CATALOG (build_constraints {} { session_id := "s" })
        ["hero_base_v1"] ["hero"] (fun _ => 1/2) 0).selected_components := by
    have hsel : (select COMPONENT_CATALOG (build_constraints {} { session_id := "s" })
        ["hero_base_v1"] ["hero"] (fun _ => 1/2) 0).selected_components
        = [ComponentCandidate.mk "hero_minimalist_v1" "hero" "minimalist" "v1"
            0 (1/4) 0 ["hero", "clean"] true true] := by
      with_unfolding_all rfl
    rw [hsel]
    exact List.mem_cons_self _ _
  exact ⟨hmem, claim_C5_exclusion_respected COMPONENT_CATALOG
    (build_constraints {} { session_id := "s" }) ["hero_base_v1"] ["hero"] (fun _ => 1/2) 0
    _ hmem⟩

/-- C6. Zero exploration budget disables exploration: when the budget is 0
and every random draw is non-negative (as `random.random()` guarantees),
`exploration_components` is empty for any catalog, exclusions and slots. -/
theorem claim_C6_zero_budget (catalog : List ComponentCandidate)
    (constraints : Constraints) (recently_used : List String)
    (required_types : List String) (rand : ℕ → ℚ) (now : ℚ)
    (hb : constraints.exploration_budget = 0) (hr : ∀ n, 0 ≤ rand n) :
    (select catalog constraints recently_used required_types rand now).exploration_components
      = [] := by
  simp only [select, hb]
  exact select_loop_expl_nil _ rand hr required_types 0

/-- C6 witness: a concrete run with budget 0 and constant draw 1/2 returns
no exploration components. -/
theorem claim_C6_zero_budget_witness :
    (Constraints.mk {} (SoftPreferences.mk [] [] [] []) 0).exploration_budget = 0 ∧
    (∀ n : ℕ, (0:ℚ) ≤ (fun _ => 1/2 : ℕ → ℚ) n) ∧
    (select COMPONENT_CATALOG (Constraints.mk {} (SoftPreferences.mk [] [] [] []) 0)
      [] ["hero", "product-grid", "cta"] (fun _ => 1/2) 0).exploration_components = [] := by
  refine ⟨rfl, fun n => by norm_num, ?_⟩
  exact claim_C6_zero_budget COMPONENT_CATALOG _ [] ["hero", "product-grid", "cta"]
    (fun _ => 1/2) 0 rfl (fun n => by norm_num)

/-- C7. Empty catalog is total: `select` on an empty catalog returns empty
selected and exploration lists with zero candidates considered, for any
inputs; and a required slot type with no remaining candidates is skipped,
leaving the rest of the selection unchanged. -/
theorem claim_C7_empty_catalog :
    (∀ (constraints : Constraints) (recently_used required_types : List String)
       (rand : ℕ → ℚ) (now : ℚ),
      select [] constraints recently_used required_types rand now =
        { selected_components := [], exploration_components := [],
          total_candidates_considered := 0, selection_timestamp := now }) ∧
    (∀ (scored : List ComponentCandidate) (budget : ℚ) (rand : ℕ → ℚ)
       (t : String) (ts : List String) (k : ℕ),
      scored.filter (fun c => c.component_type == t) = [] →
      select_loop scored budget rand (t :: ts) k = select_loop scored budget rand ts k) := by
  constructor
  · intro constraints recently_used required_types rand now
    have hloop : ∀ (types : List String) (k : ℕ),
        select_loop [] constraints.exploration_budget rand types k = ([], []) := by
      intro types
      induction types with
      | nil => intro k; simp [select_loop]
      | cons t ts ih => intro k; simp [select_loop, ih]
    simp [select, apply_hard_constraints, score_by_preferences, hloop]
  · intro scored budget rand t ts k hf
    simp [select_loop, hf]

/-- C7 witness: instantiation of the slot-skipping clause at a concrete
catalog with no `"sidebar"` candidates. -/
theorem claim_C7_empty_catalog_witness :
    (COMPONENT_CATALOG.filter (fun c => c.component_type == "sidebar") = []) ∧
    select_loop COMPONENT_CATALOG 0 (fun _ => 1/2) ["sidebar"] 0 =
      select_loop COMPONENT_CATALOG 0 (fun _ => 1/2) [] 0 := by
  have hf : COMPONENT_CATALOG.filter (fun c => c.component_type == "sidebar") = [] := by
    with_unfolding_all rfl
  exact ⟨hf, claim_C7_empty_catalog.2 COMPONENT_CATALOG 0 (fun _ => 1/2) "sidebar" [] 0 hf⟩

/-- C9. Dead vector recommendation: `search_similar_modules` returns its
results only under the key `"recommended"`, while the two public
recommenders read the keys `"product-grid"` and `"hero"`; hence, for every
profile dict and every vector store, `get_recommended_template_id` returns
the fallback 0 and `get_recommended_genre` returns the fallback `"base"`. -/
theorem claim_C9_dead_recommendation (store : VectorStore) (d : ProfileDict) :
    get_recommended_template_id store d = 0 ∧ get_recommended_genre store d = "base" := by
  constructor
  · simp [get_recommended_template_id, search_similar_modules, alistGet]
  · simp [get_recommended_genre, search_similar_modules, alistGet]

/-- C4 counterexample: start from 20 ids inserted oldest-first (`c0` oldest)
plus one newly selected id `new_pick`; under the set enumeration that lists
`new_pick` first — a legitimate enumeration, since a Python `set` has no
insertion order — the update evicts the newly selected id and keeps all 20
older ids, so the evicted id is not the oldest one. -/
theorem claim_C4_counterexample :
    enumerates ("new_pick" :: (List.range 20).map (fun i => "c" ++ toString i))
      ((List.range 20).map (fun i => "c" ++ toString i)) ["new_pick"] ∧
    update_recently_used ("new_pick" :: (List.range 20).map (fun i => "c" ++ toString i)) =
      (List.range 20).map (fun i => "c" ++ toString i) ∧
    "new_pick" ∉ update_recently_used
      ("new_pick" :: (List.range 20).map (fun i => "c" ++ toString i)) ∧
    "c0" ∈ update_recently_used
      ("new_pick" :: (List.range 20).map (fun i => "c" ++ toString i)) := by
  have hupd : update_recently_used
      ("new_pick" :: (List.range 20).map (fun i => "c" ++ toString i)) =
      (List.range 20).map (fun i => "c" ++ toString i) := by
    with_unfolding_all rfl
  refine ⟨⟨?_, ?_⟩, hupd, ?_, ?_⟩
  · exact of_decide_eq_true (by with_unfolding_all rfl)
  · intro x
    simp only [List.mem_cons, List.mem_singleton]
    tauto
  · rw [hupd]
    exact of_decide_eq_true (by with_unfolding_all rfl)
  · rw [hupd]
    exact of_decide_eq_true (by with_unfolding_all rfl)

/-- C4 amended: after the update the persisted set holds at most 20 distinct
ids, all drawn from the previous set and the newly selected ids; which ids
are evicted on overflow depends on the set's enumeration order and is not
guaranteed to be the oldest ones. -/
theorem claim_C4_cap (current selectedIds order : List String)
    (h : enumerates order current selectedIds) :
    (update_recently_used order).length ≤ 20 ∧
    (update_recently_used order).Nodup ∧
    (∀ x ∈ update_recently_used order, x ∈ current ∨ x ∈ selectedIds) := by
  obtain ⟨hnd, hmem⟩ := h
  refine ⟨?_, ?_, ?_⟩
  · by_cases hlen : order.length > 20
    · simp only [update_recently_used, hlen, if_true, List.length_drop]
      omega
    · simp only [update_recently_used, hlen, if_false]
      omega
  · by_cases hlen : order.length > 20
    · simp only [update_recently_used, hlen, if_true]
      exact (List.drop_sublist _ _).nodup hnd
    · simpa only [update_recently_used, hlen, if_false] using hnd
  · intro x hx
    apply (hmem x).mp
    simp only [update_recently_used] at hx
    split at hx
    · exact List.mem_of_mem_drop hx
    · exact hx

/-- C4 witness: a singleton enumeration satisfies the hypothesis and the cap
conclusion follows. -/
theorem claim_C4_cap_witness :
    enumerates ["a"] [] ["a"] ∧ (update_recently_used ["a"]).length ≤ 20 := by
  have he : enumerates ["a"] [] ["a"] := ⟨by simp, fun x => by simp⟩
  exact ⟨he, (claim_C4_cap [] ["a"] ["a"] he).1⟩

/-- C10. Frame of the recently-used update: only ids of selected components
are added (exactly those, when the cap is not hit), and an exploration
component's id that was neither already present nor among the selected ids
is absent from the updated set, so it stays eligible for the next run's
recently-used filter. -/
theorem claim_C10_frame (selection : SelectionResult) (current order : List String)
    (h : enumerates order current (addedIds selection)) :
    (∀ x ∈ update_recently_used order, x ∈ current ∨ x ∈ addedIds selection) ∧
    (order.length ≤ 20 →
      ∀ x, x ∈ update_recently_used order ↔ (x ∈ current ∨ x ∈ addedIds selection)) ∧
    (∀ e ∈ selection.exploration_components,
      e.component_id ∉ current → e.component_id ∉ addedIds selection →
      e.component_id ∉ update_recently_used order) := by
  obtain ⟨hnd, hmem⟩ := h
  have hsub : ∀ x ∈ update_recently_used order, x ∈ current ∨ x ∈ addedIds selection := by
    intro x hx
    apply (hmem x).mp
    simp only [update_recently_used] at hx
    split at hx
    · exact List.mem_of_mem_drop hx
    · exact hx
  refine ⟨hsub, ?_, ?_⟩
  · intro hlen x
    have hupd : update_recently_used order = order := by
      simp only [update_recently_used]
      rw [if_neg (by omega)]
    rw [hupd]
    exact hmem x
  · intro e he hnc hns hmem'
    rcases hsub _ hmem' with hcase | hcase
    · exact hnc hcase
    · exact hns hcase

/-- C10 witness: a run that selected nothing and explored `cta_loud_v1`
leaves `cta_loud_v1` out of the recently-used set. -/
theorem claim_C10_frame_witness :
    enumerates [] [] (addedIds (SelectionResult.mk []
      [ComponentCandidate.mk "cta_loud_v1" "cta" "loud" "v1" 0 0 0 [] true true] 12 0)) ∧
    "cta_loud_v1" ∉ update_recently_used [] := by
  have he : enumerates [] [] (addedIds (SelectionResult.mk []
      [ComponentCandidate.mk "cta_loud_v1" "cta" "loud" "v1" 0 0 0 [] true true] 12 0)) :=
    ⟨List.nodup_nil, fun x => by simp [addedIds]⟩
  refine ⟨he, ?_⟩
  exact (claim_C10_frame _ [] [] he).2.2
    (ComponentCandidate.mk "cta_loud_v1" "cta" "loud" "v1" 0 0 0 [] true true)
    (List.mem_singleton_self _) (by simp) (by simp [addedIds])

/-- Left cancellation for string concatenation. -/
lemma string_append_cancel_left {a b c : String} (h : a ++ b = a ++ c) : b = c := by
  have hd := congrArg String.data h
  simp only [String.data_append] at hd
  exact String.ext (List.append_cancel_left hd)

/-- Right cancellation for string concatenation. -/
lemma string_append_cancel_right {a b c : String} (h : a ++ c = b ++ c) : a = b := by
  have hd := congrArg String.data h
  simp only [String.data_append] at hd
  exact String.ext (List.append_cancel_right hd)

/-- Inputs 16 and above all render as the overflow character. -/
lemma digitChar_ge_16 (k : ℕ) (hk : ¬ k < 16) : Nat.digitChar k = '*' := by
  unfold Nat.digitChar
  repeat rw [if_neg (show ¬ _ = _ by omega)]

/-- Digit characters are never an underscore. -/
lemma digitChar_ne_uscore (k : ℕ) : Nat.digitChar k ≠ '_' := by
  by_cases hk : k < 16
  · interval_cases k <;> decide
  · rw [digitChar_ge_16 k hk]
    decide

/-- Digit characters are never a hyphen. -/
lemma digitChar_ne_hyphen (k : ℕ) : Nat.digitChar k ≠ '-' := by
  by_cases hk : k < 16
  · interval_cases k <;> decide
  · rw [digitChar_ge_16 k hk]
    decide

/-- Code point of a digit character below 10. -/
lemma digitChar_toNat (k : ℕ) (h : k < 10) : (Nat.digitChar k).toNat = 48 + k := by
  interval_cases k <;> decide

/-- With sufficient fuel, `Nat.toDigitsCore` at base 10 produces the
canonical digit list in front of its accumulator. -/
lemma toDigitsCore_eq_decChars :
    ∀ (fuel n : ℕ) (acc : List Char), n ≤ fuel →
      Nat.toDigitsCore 10 (fuel + 1) n acc = decChars n ++ acc := by
  intro fuel
  induction fuel with
  | zero =>
    intro n acc hn
    have h0 : n = 0 := by omega
    subst h0
    simp [Nat.toDigitsCore, decChars]
  | succ f ih =>
    intro n acc hn
    have hstep : Nat.toDigitsCore 10 (f + 1 + 1) n acc =
        if n / 10 = 0 then Nat.digitChar (n % 10) :: acc
        else Nat.toDigitsCore 10 (f + 1) (n / 10) (Nat.digitChar (n % 10) :: acc) := rfl
    rw [hstep]
    by_cases h10 : n / 10 = 0
    · have hlt : n < 10 := by omega
      rw [if_pos h10, decChars, if_pos hlt, Nat.mod_eq_of_lt hlt]
      simp
    · have hge : ¬ n < 10 := by omega
      have hdiv : n / 10 ≤ f := by
        have := Nat.div_lt_self (show 0 < n by omega) (show 1 < 10 by norm_num)
        omega
      rw [if_neg h10, ih (n / 10) _ hdiv]
      conv_rhs => rw [decChars]
      rw [if_neg hge]
      simp

/-- `Nat.repr` renders the canonical digit list. -/
lemma natRepr_eq (n : ℕ) : Nat.repr n = (decChars n).asString := by
  unfold Nat.repr Nat.toDigits
  rw [toDigitsCore_eq_decChars n n [] (le_refl n), List.append_nil]

/-- Decimal digit lists contain neither underscores nor hyphens. -/
lemma decChars_chars (n : ℕ) : ∀ c ∈ decChars n, c ≠ '_' ∧ c ≠ '-' := by
  induction n using Nat.strong_induction_on with
  | _ n ih =>
    rw [decChars]
    split
    · intro c hc
      rw [List.mem_singleton] at hc
      subst hc
      exact ⟨digitChar_ne_uscore n, digitChar_ne_hyphen n⟩
    · intro c hc
      rcases List.mem_append.mp hc with h | h
      · exact ih (n / 10) (Nat.div_lt_self (by omega) (by norm_num)) c h
      · rw [List.mem_singleton] at h
        subst h
        exact ⟨digitChar_ne_uscore _, digitChar_ne_hyphen _⟩

/-- `parseDec` recovers the rendered number. -/
lemma parseDec_decChars (n : ℕ) : parseDec (decChars n) = n := by
  induction n using Nat.strong_induction_on with
  | _ n ih =>
    rw [decChars]
    split
    · rename_i h
      simp only [parseDec, List.foldl]
      rw [digitChar_toNat n h]
      omega
    · rename_i h
      simp only [parseDec, List.foldl_append, List.foldl]
      have hrec := ih (n / 10) (Nat.div_lt_self (by omega) (by norm_num))
      simp only [parseDec] at hrec
      rw [hrec, digitChar_toNat (n % 10) (Nat.mod_lt _ (by norm_num))]
      omega

/-- `decChars` is injective. -/
lemma decChars_inj {m n : ℕ} (h : decChars m = decChars n) : m = n := by
  have := congrArg parseDec h
  rwa [parseDec_decChars, parseDec_decChars] at this

/-- `Nat.repr` is injective. -/
lemma natRepr_inj {m n : ℕ} (h : Nat.repr m = Nat.repr n) : m = n := by
  rw [natRepr_eq, natRepr_eq] at h
  exact decChars_inj (congrArg String.data h)

/-- `toString` on an integer, by cases. -/
lemma toString_int_ofNat (m : ℕ) : toString (Int.ofNat m) = Nat.repr m := rfl

/-- `toString` on a negative integer prepends the hyphen. -/
lemma toString_int_negSucc (m : ℕ) :
    toString (Int.negSucc m) = "-" ++ Nat.repr (m + 1) := rfl

/-- The decimal rendering of an integer never contains an underscore. -/
lemma toString_int_no_uscore (n : ℤ) : '_' ∉ (toString n).data := by
  cases n with
  | ofNat m =>
    rw [toString_int_ofNat, natRepr_eq]
    intro hmem
    exact (decChars_chars m '_' hmem).1 rfl
  | negSucc m =>
    rw [toString_int_negSucc, natRepr_eq]
    intro hmem
    rw [String.data_append] at hmem
    rcases List.mem_append.mp hmem with h | h
    · simp at h
    · exact (decChars_chars (m + 1) '_' h).1 rfl

/-- The decimal rendering of an integer is injective. -/
lemma toString_int_inj {m n : ℤ} (h : toString m = toString n) : m = n := by
  cases m with
  | ofNat a =>
    cases n with
    | ofNat b =>
      rw [toString_int_ofNat, toString_int_ofNat] at h
      exact congrArg Int.ofNat (natRepr_inj h)
    | negSucc b =>
      exfalso
      rw [toString_int_ofNat, toString_int_negSucc, natRepr_eq, natRepr_eq] at h
      have hd := congrArg String.data h
      rw [String.data_append] at hd
      have : '-' ∈ decChars a := by
        have hmem : '-' ∈ ("-" : String).data ++ (decChars (b + 1)).asString.data := by simp
        rw [← hd] at hmem
        exact hmem
      exact (decChars_chars a '-' this).2 rfl
  | negSucc a =>
    cases n with
    | ofNat b =>
      exfalso
      rw [toString_int_ofNat, toString_int_negSucc, natRepr_eq, natRepr_eq] at h
      have hd := congrArg String.data h
      rw [String.data_append] at hd
      have : '-' ∈ decChars b := by
        have hmem : '-' ∈ ("-" : String).data ++ (decChars (a + 1)).asString.data := by simp
        rw [hd] at hmem
        exact hmem
      exact (decChars_chars b '-' this).2 rfl
    | negSucc b =>
      rw [toString_int_negSucc, toString_int_negSucc] at h
      have hab : a = b := by
        have := natRepr_inj (string_append_cancel_left h)
        omega
      rw [hab]

/-- In `xs ++ a :: ys`, when `a` occurs in neither prefix, the split point
is unique. -/
lemma split_at_mark {α : Type} (a : α) :
    ∀ (xs xs' ys ys' : List α), a ∉ xs → a ∉ xs' →
      xs ++ a :: ys = xs' ++ a :: ys' → xs = xs' ∧ ys = ys' := by
  intro xs
  induction xs with
  | nil =>
    intro xs' ys ys' _ hx' h
    cases xs' with
    | nil => simpa using h
    | cons b t =>
      exfalso
      rw [List.nil_append, List.cons_append, List.cons.injEq] at h
      exact hx' (h.1 ▸ List.mem_cons_self _ _)
  | cons b t ih =>
    intro xs' ys ys' hx hx' h
    cases xs' with
    | nil =>
      exfalso
      rw [List.nil_append, List.cons_append, List.cons.injEq] at h
      exact hx (h.1 ▸ List.mem_cons_self _ _)
    | cons b' t' =>
      rw [List.cons_append, List.cons_append, List.cons.injEq] at h
      obtain ⟨hb, ht⟩ := h
      have hx2 : a ∉ t := fun hm => hx (List.mem_cons_of_mem _ hm)
      have hx2' : a ∉ t' := fun hm => hx' (List.mem_cons_of_mem _ hm)
      obtain ⟨h1, h2⟩ := ih t' ys ys' hx2 hx2' ht
      exact ⟨by rw [hb, h1], h2⟩

/-- The `layout_id` string `layout_{sid}_{n}` determines the session id and
the integer second: the rendered integer contains no underscore, so the
split at the last underscore is unique. -/
lemma layout_id_parts {sid1 sid2 : String} {n1 n2 : ℤ}
    (h : "layout_" ++ sid1 ++ "_" ++ toString n1 =
         "layout_" ++ sid2 ++ "_" ++ toString n2) :
    sid1 = sid2 ∧ n1 = n2 := by
  have hd := congrArg String.data h
  simp only [String.data_append, List.append_assoc] at hd
  have hd' := List.append_cancel_left hd
  rw [List.singleton_append, List.singleton_append] at hd'
  have hr := congrArg List.reverse hd'
  simp only [List.reverse_append, List.reverse_cons, List.append_assoc,
    List.singleton_append] at hr
  have hnu1 : '_' ∉ (toString n1).data.reverse := by
    rw [List.mem_reverse]
    exact toString_int_no_uscore n1
  have hnu2 : '_' ∉ (toString n2).data.reverse := by
    rw [List.mem_reverse]
    exact toString_int_no_uscore n2
  obtain ⟨hdig, hsid⟩ := split_at_mark '_' _ _ _ _ hnu1 hnu2 hr
  constructor
  · exact String.ext (List.reverse_injective hsid)
  · exact toString_int_inj (String.ext (List.reverse_injective hdig))

/-- C2 amended: the layout hash is a function of the components and tokens
alone — equal component lists and equal tokens give equal hashes regardless
of session id, wall-clock time, previous hash or call order; a different
session id gives a different `layout_id`, and timestamps with different
truncated integer seconds give different `layout_id`s; but `layout_id`
depends on the clock only through `int(time.time())`, so two calls whose
timestamps fall in the same integer second produce the same `layout_id` for
the same session. -/
theorem claim_C2_layout_hash (sid sid' : String) (sel sel' : SelectionResult)
    (out out' : ReducerOutput) (prev prev' : Option String) (t t' ms ms' : ℚ) :
    (build_components sel = build_components sel' →
      extract_tokens out = extract_tokens out' →
      (assemble sid sel out prev t ms).layout_hash =
        (assemble sid' sel' out' prev' t' ms').layout_hash) ∧
    (sid ≠ sid' →
      (assemble sid sel out prev t ms).layout_id ≠
        (assemble sid' sel' out' prev' t' ms').layout_id) ∧
    (pyInt t ≠ pyInt t' →
      (assemble sid sel out prev t ms).layout_id ≠
        (assemble sid' sel' out' prev' t' ms').layout_id) ∧
    (pyInt t = pyInt t' →
      (assemble sid sel out prev t ms).layout_id =
        (assemble sid sel' out' prev' t' ms').layout_id) := by
  refine ⟨?_, ?_, ?_, ?_⟩
  · intro hc ht
    simp only [assemble]
    rw [hc, ht]
  · intro hs heq
    simp only [assemble] at heq
    exact hs (layout_id_parts heq).1
  · intro hn heq
    simp only [assemble] at heq
    exact hn (layout_id_parts heq).2
  · intro hint
    simp only [assemble]
    rw [hint]

/-- C2 witness: sessions `"a"` and `"b"` get different `layout_id`s at any
instants, and timestamps 0 s and 1.5 s (different integer seconds) get
different `layout_id`s for the same session. -/
theorem claim_C2_layout_hash_witness :
    ("a" : String) ≠ "b" ∧
    (assemble "a" (SelectionResult.mk [] [] 0 0) {} none 0 0).layout_id ≠
      (assemble "b" (SelectionResult.mk [] [] 0 0) {} none 0 0).layout_id ∧
    pyInt 0 ≠ pyInt (3/2) ∧
    (assemble "s" (SelectionResult.mk [] [] 0 0) {} none 0 0).layout_id ≠
      (assemble "s" (SelectionResult.mk [] [] 0 0) {} none (3/2) 0).layout_id := by
  have hab : ("a" : String) ≠ "b" := of_decide_eq_true (by with_unfolding_all rfl)
  have hpy : pyInt 0 ≠ pyInt (3/2) := of_decide_eq_true (by with_unfolding_all rfl)
  refine ⟨hab, ?_, hpy, ?_⟩
  · exact (claim_C2_layout_hash "a" "b" (SelectionResult.mk [] [] 0 0)
      (SelectionResult.mk [] [] 0 0) {} {} none none 0 0 0 0).2.1 hab
  · exact (claim_C2_layout_hash "s" "s" (SelectionResult.mk [] [] 0 0)
      (SelectionResult.mk [] [] 0 0) {} {} none none 0 (3/2) 0 0).2.2.1 hpy

/-- C2 counterexample: two assemblies of identical components and tokens for
the same session at different timestamps (0.5 s and 0.75 s) have equal
hashes — but also equal `layout_id`s, refuting "different timestamps yield
different layout_id values". -/
theorem claim_C2_counterexample :
    (assemble "s" (SelectionResult.mk [] [] 0 0) {} none (1/2) 0).timestamp ≠
      (assemble "s" (SelectionResult.mk [] [] 0 0) {} none (3/4) 0).timestamp ∧
    (assemble "s" (SelectionResult.mk [] [] 0 0) {} none (1/2) 0).layout_hash =
      (assemble "s" (SelectionResult.mk [] [] 0 0) {} none (3/4) 0).layout_hash ∧
    (assemble "s" (SelectionResult.mk [] [] 0 0) {} none (1/2) 0).layout_id =
      (assemble "s" (SelectionResult.mk [] [] 0 0) {} none (3/4) 0).layout_id := by
  refine ⟨?_, rfl, ?_⟩
  · have h1 : (assemble "s" (SelectionResult.mk [] [] 0 0) {} none (1/2) 0).timestamp
        = 1/2 := rfl
    have h2 : (assemble "s" (SelectionResult.mk [] [] 0 0) {} none (3/4) 0).timestamp
        = 3/4 := rfl
    rw [h1, h2]
    norm_num
  · with_unfolding_all rfl

/-- Sums of squares are non-negative. -/
lemma sumSq_nonneg (v : List ℝ) : 0 ≤ (v.map (fun x => x ^ 2)).sum := by
  apply List.sum_nonneg
  intro y hy
  obtain ⟨x, -, rfl⟩ := List.mem_map.mp hy
  positivity

/-- A vector with a non-zero coordinate has positive sum of squares. -/
lemma sumSq_pos {v : List ℝ} (h : ∃ x ∈ v, x ≠ 0) :
    0 < (v.map (fun x => x ^ 2)).sum := by
  obtain ⟨x, hx, hx0⟩ := h
  have hle : x ^ 2 ≤ (v.map (fun y => y ^ 2)).sum := by
    apply List.single_le_sum (l := v.map (fun y => y ^ 2))
    · intro y hy
      obtain ⟨z, -, rfl⟩ := List.mem_map.mp hy
      positivity
    · exact List.mem_map.mpr ⟨x, hx, rfl⟩
  have hpos : 0 < x ^ 2 := by positivity
  linarith

/-- C8. Normalization invariant: a vector with a non-zero coordinate
normalizes to unit Euclidean norm, and a zero vector (every coordinate zero,
hence zero norm) is returned unchanged by the division-by-zero guard. -/
theorem claim_C8_normalize (v : List ℝ) :
    ((∃ x ∈ v, x ≠ 0) → l2norm (normalize_vector v) = 1) ∧
    ((∀ x ∈ v, x = 0) → normalize_vector v = v) := by
  constructor
  · intro h
    have hS : 0 < (v.map (fun x => x ^ 2)).sum := sumSq_pos h
    have hn : 0 < l2norm v := Real.sqrt_pos.mpr hS
    have hsq : l2norm v ^ 2 = (v.map (fun x => x ^ 2)).sum :=
      Real.sq_sqrt (le_of_lt hS)
    simp only [normalize_vector, if_pos hn]
    rw [l2norm, List.map_map]
    have hmap : ((fun x => x ^ 2) ∘ fun x => x / l2norm v) =
        fun x => x ^ 2 * (l2norm v ^ 2)⁻¹ := by
      funext x
      simp only [Function.comp]
      ring
    rw [hmap, List.sum_map_mul_right, ← hsq]
    rw [mul_inv_cancel₀ (by positivity)]
    exact Real.sqrt_one
  · intro h
    have hz : (v.map (fun x => x ^ 2)).sum = 0 := by
      apply List.sum_eq_zero
      intro y hy
      obtain ⟨x, hx, rfl⟩ := List.mem_map.mp hy
      rw [h x hx]
      norm_num
    simp [normalize_vector, l2norm, hz]

/-- C8 witness: the vector `[3, 4]` is non-zero and normalizes to unit
norm. -/
theorem claim_C8_normalize_witness :
    (∃ x ∈ ([3, 4] : List ℝ), x ≠ 0) ∧
    l2norm (normalize_vector [3, 4]) = 1 := by
  have h : ∃ x ∈ ([3, 4] : List ℝ), x ≠ 0 := ⟨3, by norm_num, by norm_num⟩
  exact ⟨h, (claim_C8_normalize [3, 4]).1 h⟩
